import Mathlib

/-
Verification of the LoopBack helpdesk front end (React sources embedded as
pure Lean functions).  The embedding covers the user-portal chat escalation
flow (UserPortal), the admin dashboard filtering, grouping and broadcast
flows (App), and the knowledge-base editor (DatabaseViewer).
-/

namespace LoopBack

/-- Chat roles used by the user portal message list. -/
inductive Role where
  | user
  | ai
deriving DecidableEq

/-- One chat message of the user portal (`messages` state entries). -/
structure ChatMessage where
  role : Role
  content : String
deriving DecidableEq

/-- A ticket record as consumed by the dashboard (fields read by App.jsx). -/
structure Ticket where
  id : String
  query : String
  category : String
  subcategory : String
  status : String
  group_id : String
  ai_draft : String
  admin_draft : String
deriving DecidableEq

/-- A knowledge-base row as consumed by DatabaseViewer (ID, Category,
Question, Resolution). -/
structure KBEntry where
  ID : String
  Category : String
  Question : String
  Resolution : String
deriving DecidableEq

/-- The DatabaseViewer modal form state (`formData`). -/
structure KBFormData where
  Category : String
  Question : String
  Resolution : String
deriving DecidableEq

/-- The HTTP requests the UI can issue (the axios calls that appear in the
sources, restricted to those the claims are about). -/
inductive Request where
  | postChatAnalyze (message : String)
  | postTickets (query : String) (force_create : Bool)
  | postBroadcast (ticket_id : String) (final_answer : String)
  | postBroadcastAll (ticket_ids : List String) (final_answer : String)
  | postKnowledgeBase (category question resolution issue : String)
  | putKnowledgeBase (id : String) (category question resolution issue : String)
deriving DecidableEq

/-- JavaScript falsiness of an optional string: `null`/`undefined` and the
empty string are falsy (`if (!queryText)`, `if (!finalAnswer)`). -/
def jsFalsy : Option String → Bool
  | none => true
  | some s => s == ""

/-- JavaScript `String.prototype.trim`: drop leading and trailing
whitespace.  Implemented structurally over the character list so that it
evaluates by kernel reduction. -/
def jsTrim (s : String) : String :=
  String.mk (((s.data.dropWhile Char.isWhitespace).reverse.dropWhile
    Char.isWhitespace).reverse)

/-- Embeds App.jsx `escalatedTickets` filter predicate (the arrow function
body, three early-false tests, lines 243 to 248 of the dashboard source). -/
def escalatedPred (categoryFilter subcategoryFilter : String) (t : Ticket) : Bool :=
  if t.status != "Pending" && t.status != "Awaiting Info" then false
  else if categoryFilter != "All" && t.category != categoryFilter then false
  else if subcategoryFilter != "All" && t.subcategory != subcategoryFilter then false
  else true

/-- Embeds App.jsx `escalatedTickets = tickets.filter(...)`. -/
def escalatedTickets (tickets : List Ticket) (categoryFilter subcategoryFilter : String) :
    List Ticket :=
  tickets.filter (escalatedPred categoryFilter subcategoryFilter)

/-- A pending Network ticket used as a concrete test vector. -/
def demoPending : Ticket :=
  { id := "TKT-1001", query := "wifi broken", category := "Network",
    subcategory := "Wi-Fi", status := "Pending", group_id := "TKT-1001",
    ai_draft := "", admin_draft := "" }

/-- A resolved Network ticket used as a concrete test vector. -/
def demoResolved : Ticket :=
  { id := "TKT-0900", query := "old vpn issue", category := "Network",
    subcategory := "VPN", status := "Resolved", group_id := "TKT-0900",
    ai_draft := "", admin_draft := "" }

/-- An awaiting-info Hardware ticket used as a concrete test vector. -/
def demoAwaiting : Ticket :=
  { id := "TKT-1002", query := "printer jam", category := "Hardware",
    subcategory := "Printer", status := "Awaiting Info", group_id := "TKT-1002",
    ai_draft := "", admin_draft := "" }

/-- A small mixed ticket list used as a concrete test vector. -/
def demoTickets : List Ticket := [demoPending, demoResolved, demoAwaiting]

theorem escalatedPred_eq_true_iff (cf sf : String) (t : Ticket) :
    escalatedPred cf sf t = true ↔
      ((t.status = "Pending" ∨ t.status = "Awaiting Info") ∧
        (cf = "All" ∨ t.category = cf) ∧
        (sf = "All" ∨ t.subcategory = sf)) := by
  unfold escalatedPred
  split
  · next h =>
    simp only [Bool.and_eq_true, bne_iff_ne, ne_eq] at h
    simp only [Bool.false_eq_true, false_iff]
    intro hc
    exact (hc.1.elim (fun hp => h.1 hp) (fun ha => h.2 ha))
  · next h =>
    simp only [Bool.and_eq_true, bne_iff_ne, ne_eq] at h
    rw [Decidable.not_and_iff_or_not] at h
    split
    · next h2 =>
      simp only [Bool.and_eq_true, bne_iff_ne, ne_eq] at h2
      simp only [Bool.false_eq_true, false_iff]
      intro hc
      exact (hc.2.1.elim (fun hall => h2.1 hall) (fun hcat => h2.2 hcat))
    · next h2 =>
      simp only [Bool.and_eq_true, bne_iff_ne, ne_eq] at h2
      rw [Decidable.not_and_iff_or_not] at h2
      split
      · next h3 =>
        simp only [Bool.and_eq_true, bne_iff_ne, ne_eq] at h3
        simp only [Bool.false_eq_true, false_iff]
        intro hc
        exact (hc.2.2.elim (fun hall => h3.1 hall) (fun hsub => h3.2 hsub))
      · next h3 =>
        simp only [Bool.and_eq_true, bne_iff_ne, ne_eq] at h3
        rw [Decidable.not_and_iff_or_not] at h3
        simp only [eq_self_iff_true, true_iff]
        refine ⟨?_, ?_, ?_⟩
        · by_cases hp : t.status = "Pending"
          · exact Or.inl hp
          · rcases h with h | h
            · exact absurd hp (by simpa using h)
            · exact Or.inr (by simpa using h)
        · rcases h2 with h2 | h2
          · exact Or.inl (by simpa using h2)
          · exact Or.inr (by simpa using h2)
        · rcases h3 with h3 | h3
          · exact Or.inl (by simpa using h3)
          · exact Or.inr (by simpa using h3)

/-- Claim C2: a ticket of the list is in the escalated (visible) set iff its
status is Pending or Awaiting Info, the category filter is All or equals its
category, and the subcategory filter is All or equals its subcategory;
consequently, for a category filter C distinct from All the filtered set
contains only tickets with category C and status Pending or Awaiting Info. -/
theorem escalated_filter_characterization (tickets : List Ticket) (cf sf : String) :
    (∀ t, t ∈ tickets →
      (t ∈ escalatedTickets tickets cf sf ↔
        ((t.status = "Pending" ∨ t.status = "Awaiting Info") ∧
          (cf = "All" ∨ t.category = cf) ∧
          (sf = "All" ∨ t.subcategory = sf)))) ∧
    (cf ≠ "All" → ∀ t, t ∈ escalatedTickets tickets cf sf →
      t.category = cf ∧ (t.status = "Pending" ∨ t.status = "Awaiting Info")) := by
  constructor
  · intro t ht
    rw [escalatedTickets, List.mem_filter, escalatedPred_eq_true_iff]
    exact ⟨fun h => h.2, fun h => ⟨ht, h⟩⟩
  · intro hcf t ht
    rw [escalatedTickets, List.mem_filter, escalatedPred_eq_true_iff] at ht
    rcases ht.2 with ⟨hstat, hcat, _⟩
    exact ⟨hcat.resolve_left hcf, hstat⟩

/-- Instantiation of the C2 theorem on a concrete ticket list and filters. -/
theorem escalated_filter_characterization_witness :
    (demoPending ∈ escalatedTickets demoTickets "Network" "All" ↔
      ((demoPending.status = "Pending" ∨ demoPending.status = "Awaiting Info") ∧
        ("Network" = "All" ∨ demoPending.category = "Network") ∧
        ("All" = "All" ∨ demoPending.subcategory = "All"))) :=
  (escalated_filter_characterization demoTickets "Network" "All").1 demoPending (by decide)

/-- Embeds the `lastUserMsg` computation of UserPortal.createTicket
(line 25): spread-copy, reverse, find the first entry with role user. -/
def lastUserMsg (currentMessages : List ChatMessage) : Option ChatMessage :=
  currentMessages.reverse.find? (fun m => m.role == Role.user)

/-- Embeds the `queryText` computation of UserPortal.createTicket
(lines 23 to 27): the summary argument when JS-truthy, else the content of
the last user message, else the literal fallback text. -/
def createTicketQuery (currentMessages : List ChatMessage) (summary : Option String) :
    String :=
  if jsFalsy summary then
    match lastUserMsg currentMessages with
    | some m => m.content
    | none => "Support Request"
  else summary.getD ""

/-- Embeds the POST issued by UserPortal.createTicket (lines 29 to 33):
`axios.post(.../tickets)` with the computed query and `force_create: true`. -/
def createTicketRequest (currentMessages : List ChatMessage) (summary : Option String) :
    Request :=
  Request.postTickets (createTicketQuery currentMessages summary) true

/-- Shape of a successful POST /chat/analyze response as read by handleSend. -/
structure AnalyzeResponse where
  response : String
  escalation_required : Bool
  summary : Option String
deriving DecidableEq

/-- The UserPortal component state read by handleSend: the input box, the
message list, the loading flag and the ticket-created flag. -/
structure PortalState where
  input : String
  messages : List ChatMessage
  loading : Bool
  ticketCreated : Option String
deriving DecidableEq

/-- Embeds UserPortal.handleSend (lines 42 to 73) as the list of requests one
submit issues, given the analyze response `res` the backend returns: the
guard returns early on blank input or while loading; otherwise the analyze
POST goes out and, when `res.escalation_required` holds, createTicket runs
on the updated message list.  The body reads `input`, `loading` and
`messages` but never reads `ticketCreated`, exactly as in the source. -/
def handleSendRequests (st : PortalState) (res : AnalyzeResponse) : List Request :=
  if jsTrim st.input == "" || st.loading then []
  else
    let userMsg := jsTrim st.input
    let newMessages := st.messages ++ [{ role := Role.user, content := userMsg }]
    let updatedMessages := newMessages ++ [{ role := Role.ai, content := res.response }]
    Request.postChatAnalyze userMsg ::
      (if res.escalation_required then [createTicketRequest updatedMessages res.summary]
       else [])

/-- Recognizes a ticket-creation request (POST /tickets). -/
def isTicketCreation : Request → Bool
  | .postTickets _ _ => true
  | _ => false

/-- A short chat transcript used as a concrete test vector. -/
def demoChat : List ChatMessage :=
  [{ role := Role.ai, content := "Hi! I am your IT Assistant." },
   { role := Role.user, content := "The VPN will not connect" },
   { role := Role.ai, content := "I could not find a fix in the knowledge base." }]

/-- A portal state whose ticket-created flag is already set. -/
def demoPortalWithTicket : PortalState :=
  { input := "It is still broken", messages := demoChat, loading := false,
    ticketCreated := some "TKT-1001" }

/-- An analyze response that requests escalation with no summary. -/
def demoEscalateAgain : AnalyzeResponse :=
  { response := "Escalating to a human agent.", escalation_required := true,
    summary := none }

/-- Claim C1 (code evaluation): handleSend is insensitive to the
ticket-created flag — replacing the flag by any value leaves the issued
request list unchanged — and, concretely, in a state whose flag is already
set to TKT-1001 a submit whose analyze response has escalation_required true
still issues a second POST /tickets creation request. -/
theorem handleSend_creates_ticket_despite_flag :
    (∀ (st : PortalState) (res : AnalyzeResponse) (tc : Option String),
      handleSendRequests { st with ticketCreated := tc } res = handleSendRequests st res) ∧
    demoPortalWithTicket.ticketCreated = some "TKT-1001" ∧
    (handleSendRequests demoPortalWithTicket demoEscalateAgain).filter isTicketCreation =
      [Request.postTickets "It is still broken" true] := by
  refine ⟨fun st res tc => rfl, rfl, by decide⟩

theorem find?_eq_head?_filter {α : Type} (p : α → Bool) :
    ∀ l : List α, l.find? p = (l.filter p).head? := by
  intro l
  induction l with
  | nil => rfl
  | cons a l ih =>
    cases hp : p a
    · rw [List.find?_cons_of_neg _ (by simp [hp]), List.filter_cons, if_neg (by simp [hp]), ih]
    · rw [List.find?_cons_of_pos _ hp, List.filter_cons, if_pos hp, List.head?_cons]

theorem lastUserMsg_eq_getLast_filter (msgs : List ChatMessage) :
    lastUserMsg msgs = (msgs.filter (fun m => m.role == Role.user)).getLast? := by
  rw [lastUserMsg, find?_eq_head?_filter, List.filter_reverse, List.head?_reverse]

/-- Claim C3 (counterexample): a present but empty summary is not used as
the ticket query — the code falls back to the last user message, so the
query differs from the summary value. -/
theorem createTicket_query_ignores_empty_summary :
    createTicketQuery demoChat (some "") = "The VPN will not connect" ∧
    ¬ createTicketQuery demoChat (some "") = "" := by decide

/-- Claim C3 (amended): the ticket-creation query equals the AI summary when
the summary is present and non-empty; when the summary is absent or empty it
equals the content of the most recent user message of the conversation, and
the literal "Support Request" when no user message exists. -/
theorem createTicket_query_spec (msgs : List ChatMessage) (summary : Option String) :
    (∀ s, summary = some s → s ≠ "" → createTicketQuery msgs summary = s) ∧
    ((summary = none ∨ summary = some "") →
      createTicketQuery msgs summary =
        (match (msgs.filter (fun m => m.role == Role.user)).getLast? with
         | some m => m.content
         | none => "Support Request")) := by
  constructor
  · intro s hs hne
    subst hs
    have hj : jsFalsy (some s) = false := by simp [jsFalsy, hne]
    simp [createTicketQuery, hj]
  · intro hcase
    have hj : jsFalsy summary = true := by
      rcases hcase with h | h <;> subst h <;> simp [jsFalsy]
    simp only [createTicketQuery, hj, if_true]
    rw [lastUserMsg_eq_getLast_filter]

/-- Instantiation of the amended C3 theorem: a non-empty summary becomes the
ticket query verbatim. -/
theorem createTicket_query_spec_witness :
    createTicketQuery demoChat (some "VPN connectivity failure") =
      "VPN connectivity failure" :=
  (createTicket_query_spec demoChat (some "VPN connectivity failure")).1
    "VPN connectivity failure" rfl (by decide)

/-- Embeds the per-card grouping computation of the escalated grid
(App.jsx lines 518 to 520): the tickets sharing the card ticket group_id
and in Pending status. -/
def groupedTickets (tickets : List Ticket) (ticket : Ticket) : List Ticket :=
  tickets.filter (fun t => t.group_id == ticket.group_id && t.status == "Pending")

/-- Embeds `otherCount = groupedTickets.length - 1` (App.jsx line 522); the
value is a JS number, so the embedding uses an integer. -/
def otherCount (tickets : List Ticket) (ticket : Ticket) : Int :=
  (groupedTickets tickets ticket).length - 1

/-- First of three Pending tickets sharing group TKT-1001. -/
def demoGroupA : Ticket :=
  { id := "TKT-1001", query := "Wi-Fi not working", category := "Network",
    subcategory := "Wi-Fi", status := "Pending", group_id := "TKT-1001",
    ai_draft := "", admin_draft := "" }

/-- Second of three Pending tickets sharing group TKT-1001. -/
def demoGroupB : Ticket :=
  { id := "TKT-1002", query := "Internet keeps dropping", category := "Network",
    subcategory := "Wi-Fi", status := "Pending", group_id := "TKT-1001",
    ai_draft := "", admin_draft := "" }

/-- Third of three Pending tickets sharing group TKT-1001. -/
def demoGroupC : Ticket :=
  { id := "TKT-1003", query := "Cannot connect to wireless", category := "Network",
    subcategory := "Wi-Fi", status := "Pending", group_id := "TKT-1001",
    ai_draft := "", admin_draft := "" }

/-- Three Pending Network tickets sharing group_id TKT-1001. -/
def demo3Tickets : List Ticket := [demoGroupA, demoGroupB, demoGroupC]

/-- Claim C4 (code evaluation): the per-card `otherCount` value equals the
number of Pending tickets sharing the card group_id minus one, and on the
three-ticket group TKT-1001 it evaluates to 2 for every card.  The value is
computed inside the grid map but is not referenced by the returned card
markup. -/
theorem otherCount_eq_group_size_sub_one :
    (∀ (tickets : List Ticket) (t : Ticket),
      otherCount tickets t =
        (tickets.countP
          (fun u => u.group_id == t.group_id && u.status == "Pending") : Int) - 1) ∧
    (∀ t, t ∈ demo3Tickets → otherCount demo3Tickets t = 2) := by
  constructor
  · intro tickets t
    simp only [otherCount, groupedTickets, List.countP_eq_length_filter]
  · decide

/-- Instantiation of the C4 theorem on the anchor card of group TKT-1001. -/
theorem otherCount_eq_group_size_sub_one_witness :
    otherCount demo3Tickets demoGroupA = 2 :=
  otherCount_eq_group_size_sub_one.2 demoGroupA (by decide)

/-- The dashboard state that drives the broadcast-all modal: the selected
ticket ids, the shared resolution text, the integrated-confirm flag and the
modal visibility flag. -/
structure BroadcastAllState where
  selectedTicketIds : List String
  broadcastAllText : String
  isConfirmingBroadcastAll : Bool
  showBroadcastAll : Bool
deriving DecidableEq

/-- Embeds openBroadcastModal (App.jsx lines 331 to 339): an empty selection
defaults to the ids of the currently visible escalated tickets; the text is
cleared, the confirm step is reset and the modal is shown. -/
def openBroadcastModal (tickets : List Ticket) (cf sf : String)
    (st : BroadcastAllState) : BroadcastAllState :=
  let sel :=
    if st.selectedTicketIds.isEmpty then
      (escalatedTickets tickets cf sf).map (fun t => t.id)
    else st.selectedTicketIds
  { selectedTicketIds := sel, broadcastAllText := "",
    isConfirmingBroadcastAll := false, showBroadcastAll := true }

/-- Embeds handleBroadcastAll (App.jsx lines 347 to 379) as one submit step:
empty selection or blank text short-circuit with an error notification and
no request; a submit with the confirm flag unset only sets the flag; a
confirming submit issues the single POST /broadcast_all carrying the
selected ids and the text.  `ok` abstracts whether that POST succeeds (on
failure the catch block leaves the state unchanged and shows an error). -/
def handleBroadcastAll (st : BroadcastAllState) (ok : Bool) :
    BroadcastAllState × List Request :=
  if st.selectedTicketIds.isEmpty then (st, [])
  else if jsTrim st.broadcastAllText == "" then (st, [])
  else if !st.isConfirmingBroadcastAll then
    ({ st with isConfirmingBroadcastAll := true }, [])
  else
    let req := Request.postBroadcastAll st.selectedTicketIds st.broadcastAllText
    if ok then
      ({ selectedTicketIds := [], broadcastAllText := "",
         isConfirmingBroadcastAll := false, showBroadcastAll := false }, [req])
    else (st, [req])

/-- Claim C5: opening the modal with an empty selection defaults the
selection to all currently visible escalated tickets (text cleared, confirm
step reset, modal shown); with a non-empty selection and non-blank text the
first submit only enters the confirmation step and issues no request, and
the confirming submit issues exactly one POST /broadcast_all carrying the
full selected id list and the resolution text. -/
theorem broadcast_all_two_step (tickets : List Ticket) (cf sf : String)
    (st : BroadcastAllState) (ok : Bool) :
    (st.selectedTicketIds = [] →
      openBroadcastModal tickets cf sf st =
        { selectedTicketIds := (escalatedTickets tickets cf sf).map (fun t => t.id),
          broadcastAllText := "", isConfirmingBroadcastAll := false,
          showBroadcastAll := true }) ∧
    (st.selectedTicketIds ≠ [] → jsTrim st.broadcastAllText ≠ "" →
      st.isConfirmingBroadcastAll = false →
      handleBroadcastAll st ok = ({ st with isConfirmingBroadcastAll := true }, [])) ∧
    (st.selectedTicketIds ≠ [] → jsTrim st.broadcastAllText ≠ "" →
      st.isConfirmingBroadcastAll = true →
      (handleBroadcastAll st ok).2 =
        [Request.postBroadcastAll st.selectedTicketIds st.broadcastAllText]) := by
  refine ⟨?_, ?_, ?_⟩
  · intro h
    simp [openBroadcastModal, h]
  · intro h1 h2 h3
    have e1 : st.selectedTicketIds.isEmpty = false := by
      simp [List.isEmpty_iff, h1]
    have e2 : (jsTrim st.broadcastAllText == "") = false := by
      simp [h2]
    simp [handleBroadcastAll, e1, e2, h3]
  · intro h1 h2 h3
    have e1 : st.selectedTicketIds.isEmpty = false := by
      simp [List.isEmpty_iff, h1]
    have e2 : (jsTrim st.broadcastAllText == "") = false := by
      simp [h2]
    cases ok <;> simp [handleBroadcastAll, e1, e2, h3]

/-- A dashboard broadcast-all state ready for the first submit. -/
def demoBroadcastState : BroadcastAllState :=
  { selectedTicketIds := ["TKT-1001", "TKT-1002"],
    broadcastAllText := "Restart the router", isConfirmingBroadcastAll := false,
    showBroadcastAll := true }

/-- Instantiation of the C5 theorem: the first submit on a filled selection
only arms the confirmation step and issues no request. -/
theorem broadcast_all_two_step_witness :
    handleBroadcastAll demoBroadcastState true =
      ({ demoBroadcastState with isConfirmingBroadcastAll := true }, []) :=
  (broadcast_all_two_step demo3Tickets "All" "All" demoBroadcastState true).2.1
    (by decide) (by decide) rfl

/-- Outcome of approveResolution: either the empty-draft error notification,
or a pending confirm popup holding the broadcast request. -/
inductive ApproveOutcome where
  | rejected (notificationMessage : String)
  | confirmPending (pending : Request)
deriving DecidableEq

/-- Embeds approveResolution (App.jsx lines 285 to 307): the draft textarea
value is read from the DOM (an absent element gives none); a falsy draft
short-circuits with the error message and no popup; otherwise the confirm
popup is opened with the POST /broadcast request pending. -/
def approveResolution (ticketId : String) (draftValue : Option String) :
    ApproveOutcome :=
  if jsFalsy draftValue then ApproveOutcome.rejected "Please enter a solution"
  else ApproveOutcome.confirmPending
    (Request.postBroadcast ticketId (draftValue.getD ""))

/-- Requests issued when the confirm popup is answered: Confirm runs the
stored onConfirm (the POST), Cancel only closes the popup; the rejected
outcome never reaches the popup. -/
def confirmPopupRequests (o : ApproveOutcome) (confirmed : Bool) : List Request :=
  match o with
  | ApproveOutcome.rejected _ => []
  | ApproveOutcome.confirmPending r => if confirmed then [r] else []

/-- Claim C8: an empty (or absent) draft yields only the error notification
and never a request, for either popup answer; a non-empty draft issues the
POST /broadcast with the ticket id and the draft only after the operator
confirms, and cancelling issues no request. -/
theorem broadcast_one_flow (id : String) :
    (approveResolution id none = ApproveOutcome.rejected "Please enter a solution" ∧
     approveResolution id (some "") = ApproveOutcome.rejected "Please enter a solution" ∧
     (∀ c, confirmPopupRequests (approveResolution id none) c = [] ∧
           confirmPopupRequests (approveResolution id (some "")) c = [])) ∧
    (∀ d, d ≠ "" →
      confirmPopupRequests (approveResolution id (some d)) true =
        [Request.postBroadcast id d] ∧
      confirmPopupRequests (approveResolution id (some d)) false = []) := by
  constructor
  · refine ⟨rfl, rfl, fun c => ⟨rfl, rfl⟩⟩
  · intro d hd
    have e : ((d == "") : Bool) = false := by simp [hd]
    constructor <;> simp [approveResolution, confirmPopupRequests, jsFalsy, e]

/-- Instantiation of the C8 theorem: a confirmed non-empty draft issues the
broadcast request for that ticket. -/
theorem broadcast_one_flow_witness :
    confirmPopupRequests
      (approveResolution "TKT-1001" (some "Restart the router")) true =
      [Request.postBroadcast "TKT-1001" "Restart the router"] :=
  ((broadcast_one_flow "TKT-1001").2 "Restart the router" (by decide)).1

/-- Seen-set pass modelling the JS `new Set(...)` spread: keeps the first
occurrence of each element, in insertion order, skipping elements already
seen. -/
def dedupFirstAux : List String → List String → List String
  | _, [] => []
  | seen, a :: l =>
    if a ∈ seen then dedupFirstAux seen l
    else a :: dedupFirstAux (a :: seen) l

/-- First-occurrence deduplication, the meaning of `[...new Set(list)]`. -/
def dedupFirst (l : List String) : List String := dedupFirstAux [] l

/-- Embeds activeSubcategories (App.jsx lines 251 to 256): the literal All
followed by the Set spread of the subcategories of the tickets whose
category equals the filter and whose status is Pending or Awaiting Info,
with falsy (empty) subcategories dropped by `.filter(Boolean)`. -/
def activeSubcategories (tickets : List Ticket) (categoryFilter : String) :
    List String :=
  "All" :: dedupFirst
    (((tickets.filter (fun t =>
        t.category == categoryFilter &&
          (t.status == "Pending" || t.status == "Awaiting Info"))).map
      (fun t => t.subcategory)).filter (fun s => s != ""))

/-- Follows the C6 spec sentence word for word, for comparison with the
code: All followed by the distinct subcategories among the tickets matching
the current category filter (a ticket matches the filter when the filter is
All or equals its category; no status condition, no falsiness condition). -/
def subcatOptionsSpec (tickets : List Ticket) (categoryFilter : String) :
    List String :=
  "All" :: dedupFirst
    ((tickets.filter (fun t =>
        categoryFilter == "All" || t.category == categoryFilter)).map
      (fun t => t.subcategory))

/-- Claim C6 (counterexample): a Resolved Network ticket with subcategory
VPN is counted by the spec sentence but not by the code, which also
restricts the option sources to Pending or Awaiting Info tickets. -/
theorem activeSubcategories_ne_spec :
    activeSubcategories [demoResolved] "Network" = ["All"] ∧
    subcatOptionsSpec [demoResolved] "Network" = ["All", "VPN"] ∧
    activeSubcategories [demoResolved] "Network" ≠
      subcatOptionsSpec [demoResolved] "Network" := by decide

theorem mem_dedupFirstAux (a : String) :
    ∀ (l seen : List String), a ∈ dedupFirstAux seen l ↔ (a ∈ l ∧ a ∉ seen) := by
  intro l
  induction l with
  | nil => intro seen; simp [dedupFirstAux]
  | cons b l ih =>
    intro seen
    by_cases hb : b ∈ seen
    · rw [dedupFirstAux, if_pos hb, ih seen, List.mem_cons]
      constructor
      · exact fun h => ⟨Or.inr h.1, h.2⟩
      · rintro ⟨hab | hal, hs⟩
        · exact absurd (hab ▸ hb) hs
        · exact ⟨hal, hs⟩
    · rw [dedupFirstAux, if_neg hb, List.mem_cons, ih (b :: seen), List.mem_cons,
        List.mem_cons]
      constructor
      · rintro (hab | ⟨hal, hs⟩)
        · exact ⟨Or.inl hab, hab ▸ hb⟩
        · exact ⟨Or.inr hal, fun hc => hs (Or.inr hc)⟩
      · rintro ⟨hab | hal, hs⟩
        · exact Or.inl hab
        · by_cases hab : a = b
          · exact Or.inl hab
          · exact Or.inr ⟨hal, fun hc => hc.elim hab hs⟩

theorem nodup_dedupFirstAux :
    ∀ (l seen : List String), (dedupFirstAux seen l).Nodup := by
  intro l
  induction l with
  | nil => intro seen; simp [dedupFirstAux]
  | cons b l ih =>
    intro seen
    by_cases hb : b ∈ seen
    · rw [dedupFirstAux, if_pos hb]; exact ih seen
    · rw [dedupFirstAux, if_neg hb, List.nodup_cons]
      refine ⟨fun hc => ?_, ih (b :: seen)⟩
      exact ((mem_dedupFirstAux b l (b :: seen)).mp hc).2 (List.mem_cons_self b seen)

/-- Claim C6 (amended): an option is offered iff it is the literal All or a
non-empty subcategory of some ticket whose category equals the filter and
whose status is Pending or Awaiting Info; the options after All carry no
duplicates. -/
theorem active_subcategories_characterization (tickets : List Ticket) (cf : String) :
    (∀ s, s ∈ activeSubcategories tickets cf ↔
      (s = "All" ∨ (s ≠ "" ∧ ∃ t, t ∈ tickets ∧ t.category = cf ∧
        (t.status = "Pending" ∨ t.status = "Awaiting Info") ∧
        t.subcategory = s))) ∧
    (activeSubcategories tickets cf).tail.Nodup := by
  constructor
  · intro s
    rw [activeSubcategories, List.mem_cons, dedupFirst, mem_dedupFirstAux]
    simp only [List.mem_filter, List.mem_map, List.not_mem_nil, not_false_iff,
      and_true, Bool.and_eq_true, Bool.or_eq_true, beq_iff_eq, bne_iff_ne, ne_eq]
    constructor
    · rintro (hall | ⟨⟨t, ⟨htm, hcat, hstat⟩, hsub⟩, hne⟩)
      · exact Or.inl hall
      · exact Or.inr ⟨hne, t, htm, hcat, hstat, hsub⟩
    · rintro (hall | ⟨hne, t, htm, hcat, hstat, hsub⟩)
      · exact Or.inl hall
      · exact Or.inr ⟨⟨t, ⟨htm, hcat, hstat⟩, hsub⟩, hne⟩
  · rw [activeSubcategories, List.tail_cons, dedupFirst]
    exact nodup_dedupFirstAux _ []

/-- Instantiation of the amended C6 theorem on a concrete ticket list. -/
theorem active_subcategories_characterization_witness :
    ("Wi-Fi" ∈ activeSubcategories demoTickets "Network" ↔
      ("Wi-Fi" = "All" ∨ ("Wi-Fi" ≠ "" ∧ ∃ t, t ∈ demoTickets ∧
        t.category = "Network" ∧
        (t.status = "Pending" ∨ t.status = "Awaiting Info") ∧
        t.subcategory = "Wi-Fi"))) :=
  (active_subcategories_characterization demoTickets "Network").1 "Wi-Fi"

/-- Embeds the DatabaseViewer save pipeline: the three modal inputs carry
the HTML required attribute (part of the form markup), so the browser
blocks submission while any of them is empty and handleSave never runs;
otherwise handleSave issues one PUT /knowledge-base/id when an entry is
being edited, else one POST /knowledge-base, with the payload of the three
fields plus the deprecated empty issue field. -/
def kbFormSubmit (formData : KBFormData) (editingEntry : Option KBEntry) :
    Option Request :=
  if formData.Category == "" || formData.Question == "" ||
      formData.Resolution == "" then none
  else some (match editingEntry with
    | some entry =>
        Request.putKnowledgeBase entry.ID formData.Category formData.Question
          formData.Resolution ""
    | none =>
        Request.postKnowledgeBase formData.Category formData.Question
          formData.Resolution "")

/-- Claim C7: a submission with an empty Category, Question or Resolution is
rejected before any request is issued; with all three non-empty, submitting
issues exactly one PUT with the entry identifier when editing, else exactly
one POST, carrying the three fields. -/
theorem kb_save_validation (fd : KBFormData) (ee : Option KBEntry) :
    ((fd.Category = "" ∨ fd.Question = "" ∨ fd.Resolution = "") →
      kbFormSubmit fd ee = none) ∧
    (fd.Category ≠ "" → fd.Question ≠ "" → fd.Resolution ≠ "" →
      (∀ entry, ee = some entry →
        kbFormSubmit fd ee = some (Request.putKnowledgeBase entry.ID
          fd.Category fd.Question fd.Resolution "")) ∧
      (ee = none →
        kbFormSubmit fd ee = some (Request.postKnowledgeBase
          fd.Category fd.Question fd.Resolution ""))) := by
  constructor
  · intro h
    rcases h with h | h | h <;> simp [kbFormSubmit, h]
  · intro h1 h2 h3
    have e1 : ((fd.Category == "") : Bool) = false := by simp [h1]
    have e2 : ((fd.Question == "") : Bool) = false := by simp [h2]
    have e3 : ((fd.Resolution == "") : Bool) = false := by simp [h3]
    constructor
    · intro entry he
      simp [kbFormSubmit, e1, e2, e3, he]
    · intro he
      simp [kbFormSubmit, e1, e2, e3, he]

/-- A filled knowledge-base form used as a concrete test vector. -/
def demoKBForm : KBFormData :=
  { Category := "Network", Question := "VPN will not connect",
    Resolution := "Restart the VPN client" }

/-- Instantiation of the C7 theorem: a filled create form issues the POST
with the three fields. -/
theorem kb_save_validation_witness :
    kbFormSubmit demoKBForm none = some (Request.postKnowledgeBase
      "Network" "VPN will not connect" "Restart the VPN client" "") :=
  ((kb_save_validation demoKBForm none).2 (by decide) (by decide) (by decide)).2 rfl

/-- The network request sites of the UI: admin dashboard (ticket fetch,
broadcast one, delete, broadcast all, ask user), user portal (chat analyze,
automatic ticket creation, manual escalation) and the knowledge-base viewer
(fetch, save, delete). -/
inductive RequestSite where
  | fetchTickets
  | approveBroadcast
  | deleteTicket
  | broadcastAll
  | askUser
  | chatAnalyze
  | autoCreateTicket
  | manualEscalate
  | kbFetch
  | kbSave
  | kbDelete
deriving DecidableEq

/-- How a failed request is surfaced to the user. -/
inductive FailureSurface where
  | notification
  | blockingAlert
  | chatMessage
  | consoleOnly
deriving DecidableEq

/-- Failure handling transcribed from each catch block of the sources:
fetchTickets and the knowledge-base fetch log to the console only, as does
the automatic createTicket of the user portal; the chat analyze failure is
appended to the chat as an assistant message; manual escalation and the
knowledge-base save and delete use a blocking alert; the remaining mutation
calls use the toast notification. -/
def failureSurface : RequestSite → FailureSurface
  | RequestSite.fetchTickets => FailureSurface.consoleOnly
  | RequestSite.approveBroadcast => FailureSurface.notification
  | RequestSite.deleteTicket => FailureSurface.notification
  | RequestSite.broadcastAll => FailureSurface.notification
  | RequestSite.askUser => FailureSurface.notification
  | RequestSite.chatAnalyze => FailureSurface.chatMessage
  | RequestSite.autoCreateTicket => FailureSurface.consoleOnly
  | RequestSite.manualEscalate => FailureSurface.blockingAlert
  | RequestSite.kbFetch => FailureSurface.consoleOnly
  | RequestSite.kbSave => FailureSurface.blockingAlert
  | RequestSite.kbDelete => FailureSurface.blockingAlert

/-- Whether the catch block of a site re-issues the failed request: no
catch block in the sources contains a retry. -/
def retriesOnFailure : RequestSite → Bool
  | _ => false

/-- Claim C9 (counterexample): the ticket-list fetch failure is logged to
the console only — it is surfaced neither as a notification nor as a
blocking alert, contradicting the claim for that request site. -/
theorem fetch_failure_not_surfaced :
    ¬ (failureSurface RequestSite.fetchTickets = FailureSurface.notification ∨
       failureSurface RequestSite.fetchTickets = FailureSurface.blockingAlert) := by
  decide

/-- Claim C9 (amended): no request site retries automatically, and a failure
is surfaced as a one-shot notification or blocking alert exactly at the
sites other than the ticket-list fetch, the automatic ticket creation, the
knowledge-base fetch (console only) and the chat analyze call (in-chat
assistant message). -/
theorem failure_handling_policy :
    (∀ s, retriesOnFailure s = false) ∧
    (∀ s, (failureSurface s = FailureSurface.notification ∨
           failureSurface s = FailureSurface.blockingAlert) ↔
      ¬ (s = RequestSite.fetchTickets ∨ s = RequestSite.autoCreateTicket ∨
         s = RequestSite.kbFetch ∨ s = RequestSite.chatAnalyze)) := by
  refine ⟨fun s => rfl, fun s => ?_⟩
  cases s <;> decide

/-- Instantiation of the amended C9 theorem at the broadcast-all site. -/
theorem failure_handling_policy_witness :
    ((failureSurface RequestSite.broadcastAll = FailureSurface.notification ∨
      failureSurface RequestSite.broadcastAll = FailureSurface.blockingAlert) ↔
     ¬ (RequestSite.broadcastAll = RequestSite.fetchTickets ∨
        RequestSite.broadcastAll = RequestSite.autoCreateTicket ∨
        RequestSite.broadcastAll = RequestSite.kbFetch ∨
        RequestSite.broadcastAll = RequestSite.chatAnalyze)) :=
  failure_handling_policy.2 RequestSite.broadcastAll

/-- The character-list version of JS `startsWith`. -/
def startsWithChars : List Char → List Char → Bool
  | [], _ => true
  | _ :: _, [] => false
  | a :: xs, b :: ys => a == b && startsWithChars xs ys

/-- The character-list version of JS `String.prototype.includes`: the
needle occurs contiguously in the haystack. -/
def containsChars (needle : List Char) : List Char → Bool
  | [] => needle.isEmpty
  | b :: ys => startsWithChars needle (b :: ys) || containsChars needle ys

/-- Lower-cases every character of a string. -/
def strToLower (s : String) : String := String.mk (s.data.map Char.toLower)

/-- Embeds `category.toLowerCase().includes(key.toLowerCase())`
(App.jsx line 238). -/
def matchesKey (category key : String) : Bool :=
  containsChars (strToLower key).data (strToLower category).data

/-- The getCategoryIcon keyword table in declaration order
(App.jsx lines 207 to 236). -/
def iconMap : List (String × String) :=
  [("Network", "🌐"), ("Hardware", "🛠️"), ("Software", "💻"),
   ("Account", "👤"), ("Facility", "🏢"), ("Password", "🔑"),
   ("VPN", "🔒"), ("Wi-Fi", "📡"), ("Printer", "🖨️"),
   ("Access", "🔓"), ("Email", "📧"), ("Laptop", "💻"),
   ("Desktop", "🖥️"), ("Monitor", "🖥️"), ("Keyboard", "⌨️"),
   ("Mouse", "🖱️"), ("License", "📜"), ("Permission", "🛡️"),
   ("Slack", "💬"), ("Zoom", "📹"), ("Azure", "☁️"),
   ("AWS", "☁️"), ("HR", "👥"), ("Finance", "💰"),
   ("Security", "🛡️"), ("Meeting", "🤝"), ("Audio", "🔊"),
   ("Video", "🎬")]

/-- Embeds the for-of loop over Object.entries(iconMap) with its early
return (App.jsx lines 237 to 239). -/
def lookupIcon (category : String) : List (String × String) → Option String
  | [] => none
  | kv :: rest =>
    if matchesKey category kv.1 then some kv.2 else lookupIcon category rest

/-- Embeds getCategoryIcon (App.jsx lines 206 to 241): first matching table
entry in declaration order, else the fallback icon. -/
def getCategoryIcon (category : String) : String :=
  match lookupIcon category iconMap with
  | some icon => icon
  | none => "📋"

theorem lookupIcon_eq_find (c : String) :
    ∀ l : List (String × String),
      lookupIcon c l = (l.find? (fun kv => matchesKey c kv.1)).map Prod.snd := by
  intro l
  induction l with
  | nil => rfl
  | cons kv rest ih =>
    cases h : matchesKey c kv.1
    · rw [lookupIcon, if_neg (by simp [h]), List.find?_cons_of_neg _ (by simp [h]), ih]
    · have hf : List.find? (fun kv => matchesKey c kv.1) (kv :: rest) = some kv :=
        List.find?_cons_of_pos rest h
      rw [lookupIcon, if_pos h, hf]
      rfl

/-- Claim C10: getCategoryIcon returns the icon of the first keyword-table
entry, in declaration order, whose key occurs case-insensitively in the
category, and the fallback icon when no key matches; in particular the
Network entry wins over the later VPN entry, and an unmatched category
yields the fallback. -/
theorem getCategoryIcon_first_match :
    (∀ c, getCategoryIcon c =
      (match iconMap.find? (fun kv => matchesKey c kv.1) with
       | some kv => kv.2
       | none => "📋")) ∧
    getCategoryIcon "Network VPN" = "🌐" ∧
    getCategoryIcon "vpn" = "🔒" ∧
    getCategoryIcon "Catering" = "📋" := by
  refine ⟨fun c => ?_, by decide, by decide, by decide⟩
  rw [getCategoryIcon, lookupIcon_eq_find]
  cases h : iconMap.find? (fun kv => matchesKey c kv.1) <;> simp

end LoopBack
